import Mathlib

/-!
Verification development for the ai-competitor-tracker repository.

The Python sources (scraper.py, google_scraper.py, utils.py) are shallowly
embedded below.  Python strings are modelled as Lean `String`s whose code
points are the `data` list; `len` and slicing are `pyLen` and `pySlice`.
BeautifulSoup documents are modelled as trees of `Node`s carrying the tag,
the attribute list and the (already stripped) `get_text` result; the small
CSS fragment actually used by the sources (tag names, comma alternatives,
`.cls` class tokens, `[attr]` presence and `[attr*="v"]` substring tests)
is implemented by an executable matcher, and `select_one` / `select` are
the first / all matches over the descendants in document order.
-/

/-- Python `len` on a string: the number of code points. -/
def pyLen (s : String) : Nat := s.data.length

/-- Python slicing `s[:n]` for a nonnegative bound: the first `n` code points. -/
def pySlice (s : String) (n : Nat) : String := String.mk (s.data.take n)

/-- Does the first character list start with the second? -/
def listStartsWith : List Char → List Char → Bool
  | _, [] => true
  | [], _ :: _ => false
  | a :: s, b :: p => a == b && listStartsWith s p

/-- Python `s.startswith(p)` on code-point lists. -/
def pyStartsWith (s p : String) : Bool := listStartsWith s.data p.data

/-- Lexicographic strict comparison of code-point lists. -/
def listStrLt : List Char → List Char → Bool
  | [], [] => false
  | [], _ :: _ => true
  | _ :: _, [] => false
  | a :: as, b :: bs => decide (a < b) || (a == b && listStrLt as bs)

/-- Python `a < b` on strings: lexicographic comparison of code points. -/
def pyStrLt (a b : String) : Bool := listStrLt a.data b.data

/-- Does the first character list contain the second as a contiguous run? -/
def listContains (s p : List Char) : Bool :=
  listStartsWith s p ||
    (match s with
     | [] => false
     | _ :: rest => listContains rest p)

/-- Python `pat in s` / a compiled-regex `search` for a literal pattern:
substring containment (the only regex used, `/technology/ai/.*`, is a
literal followed by `.*`, so `search` succeeds exactly on containment). -/
def strContains (s pat : String) : Bool :=
  listContains s.data pat.data

/-- Split a character list at the first occurrence of a pattern,
returning the part before and the part after it. -/
def breakOnSub : List Char → List Char → Option (List Char × List Char)
  | s, pat =>
      if listStartsWith s pat then some ([], s.drop pat.length)
      else
        match s with
        | [] => none
        | c :: rest => (breakOnSub rest pat).map (fun p => (c :: p.1, p.2))

/-- A DOM element: tag name, attribute list, the text `get_text(strip=True)`
would return, and the child elements in document order. -/
inductive Node where
  | elem (tag : String) (attrs : List (String × String)) (text : String)
      (children : List Node)

/-- Tag name of a node. -/
def Node.tag : Node → String
  | .elem t _ _ _ => t

/-- Attribute list of a node. -/
def Node.attrs : Node → List (String × String)
  | .elem _ a _ _ => a

/-- Stripped text content of a node. -/
def Node.text : Node → String
  | .elem _ _ s _ => s

/-- Children of a node. -/
def Node.children : Node → List Node
  | .elem _ _ _ c => c

/-- `Tag.get(name)` in BeautifulSoup: look the attribute up by name. -/
def attrOf (attrs : List (String × String)) (a : String) : Option String :=
  (attrs.find? (fun p => p.fst == a)).map Prod.snd

/-- One attribute condition of a simple CSS selector. -/
inductive SCond where
  | hasAttr (a : String)
  | attrContains (a v : String)
  | classToken (c : String)
deriving DecidableEq

/-- A simple CSS selector: an optional tag name plus attribute conditions. -/
structure SSimple where
  tag : Option String
  conds : List SCond
deriving DecidableEq

/-- A CSS selector group: comma-separated simple selectors. -/
abbrev Selector := List SSimple

/-- Does a node satisfy one attribute condition? -/
def condMatches (attrs : List (String × String)) : SCond → Bool
  | .hasAttr a => (attrOf attrs a).isSome
  | .attrContains a v =>
      match attrOf attrs a with
      | some s => strContains s v
      | none => false
  | .classToken c =>
      match attrOf attrs "class" with
      | some s => (s.splitOn " ").contains c
      | none => false

/-- Does a node match a simple selector? -/
def simpleMatches (n : Node) (s : SSimple) : Bool :=
  (match s.tag with
   | some t => n.tag == t
   | none => true) && s.conds.all (condMatches n.attrs)

/-- Does a node match a selector group? -/
def selMatches (n : Node) (sel : Selector) : Bool :=
  sel.any (simpleMatches n)

mutual

/-- The strict descendants of a node in document (preorder) order. -/
def nodeDescendants : Node → List Node
  | .elem _ _ _ cs => descendantsList cs

/-- All nodes of a forest in document (preorder) order. -/
def descendantsList : List Node → List Node
  | [] => []
  | n :: rest => n :: (nodeDescendants n ++ descendantsList rest)

end

/-- `element.select_one(sel)`: the first descendant matching `sel`. -/
def Node.selectOne (n : Node) (sel : Selector) : Option Node :=
  (descendantsList n.children).find? (fun m => selMatches m sel)

/-- `element.select(sel)`: all descendants matching `sel`, in order. -/
def Node.selectAll (n : Node) (sel : Selector) : List Node :=
  (descendantsList n.children).filter (fun m => selMatches m sel)

/-- `soup.select(sel)` on the whole parsed document. -/
def soupSelect (soup : List Node) (sel : Selector) : List Node :=
  (descendantsList soup).filter (fun m => selMatches m sel)

/-!
Model of the pieces of `urllib.parse` used by the sources.
-/

/-- Modelled from `urllib.parse.urljoin`, for the reference shapes the
sources can pass it (the callers only invoke it on hrefs that do not start
with "http"): an absolute URL is returned unchanged, a protocol-relative
reference keeps the base scheme, a root-relative reference is appended to
the base scheme://netloc, and any other reference replaces the last path
segment of the base. -/
def urljoin (base ref : String) : String :=
  if ref = "" then base
  else if strContains ref "://" then ref
  else
    match breakOnSub base.data [':', '/', '/'] with
    | some (sch, rest) =>
        let netloc := rest.takeWhile (fun c => c != '/')
        let path := rest.drop netloc.length
        if pyStartsWith ref "//" then String.mk sch ++ ":" ++ ref
        else if pyStartsWith ref "/" then
          String.mk sch ++ "://" ++ String.mk netloc ++ ref
        else if listContains path ['/'] then
          String.mk sch ++ "://" ++ String.mk netloc ++
            String.mk ((path.reverse.dropWhile (fun c => c != '/')).reverse) ++ ref
        else String.mk sch ++ "://" ++ String.mk netloc ++ "/" ++ ref
    | none => ref

/-!
Selector constants.  Each abbreviation is the parsed form of the selector
string that appears literally in the Python sources.
-/

/-- Selector string "article". -/
def sel_article : Selector := [⟨some "article", []⟩]

/-- Selector string "h2, h3" (default title selector of scraper.py). -/
def sel_h2h3 : Selector := [⟨some "h2", []⟩, ⟨some "h3", []⟩]

/-- Selector string "time" (default date selector of scraper.py). -/
def sel_time : Selector := [⟨some "time", []⟩]

/-- Selector string "p" (default content selector of scraper.py). -/
def sel_p : Selector := [⟨some "p", []⟩]

/-- Selector string "a" (link lookup of scraper.py). -/
def sel_a : Selector := [⟨some "a", []⟩]

/-- Selector string "a[href]" (link lookup of google_scraper.py). -/
def sel_a_href : Selector := [⟨some "a", [.hasAttr "href"]⟩]

/-!
Data model shared by scraper.py and utils.py.  An article dict may lack
keys, so every field is optional; `none` stands for an absent key or a
Python `None` value.
-/

/-- An article record as produced by scraper.py and consumed by utils.py. -/
structure Article where
  title : Option String
  date : Option String
  content_preview : Option String
  link : Option String
deriving DecidableEq, Repr

/-- One competitor entry of the configuration consumed by scraper.py.  A
`none` selector field stands for an absent key, for which the source
substitutes the default selector via `dict.get`. -/
structure Competitor where
  name : String
  url : String
  selector : Option Selector
  title_selector : Option Selector
  date_selector : Option Selector
  content_selector : Option Selector

/-- The configuration dict of scraper.py. -/
structure Config where
  competitors : List Competitor
  request_timeout : Nat
  rate_limit_delay : Nat
  user_agent : String

/-- The snapshot dict returned by `CompetitorScraper.scrape_website`:
`article_count` is `none` when the key is absent (the error branch does
not set it), `error` is `none` when the key is absent (the success
branch). -/
structure Snapshot where
  competitor : String
  url : String
  timestamp : String
  articles : List Article
  article_count : Option Nat
  error : Option String
deriving DecidableEq, Repr

/-!
Embedding of scraper.py.
-/

/-- The joined content preview computed by `_extract_article_data`
(scraper.py lines 140-141): the stripped texts of the first three matches
of the content selector joined by a single space. -/
def contentOf (el : Node) (c : Competitor) : String :=
  String.intercalate " "
    (((el.selectAll (c.content_selector.getD sel_p)).take 3).map Node.text)

/-- `CompetitorScraper._extract_article_data` (scraper.py lines 128-159).
The title is the stripped text of the first match of the title selector;
the date prefers the `datetime` attribute of the first date-selector match
over its text (`Tag.get` with the text as default); the link is the href
of the first anchor, resolved with `urljoin` when it does not start with
"http"; a record is returned only when the title is truthy. -/
def extract_article_data (el : Node) (c : Competitor) : Option Article :=
  let title := (el.selectOne (c.title_selector.getD sel_h2h3)).map Node.text
  let date := (el.selectOne (c.date_selector.getD sel_time)).map
    (fun de => (attrOf de.attrs "datetime").getD de.text)
  let content := contentOf el c
  let link0 := (el.selectOne sel_a).bind (fun le => attrOf le.attrs "href")
  let link := match link0 with
    | some h =>
        if h != "" && !(pyStartsWith h "http") then some (urljoin c.url h)
        else some h
    | none => none
  match title with
  | some t =>
      if t != "" then
        some { title := some t, date := date,
               content_preview :=
                 if content != "" then some (pySlice content 500) else none,
               link := link }
      else none
  | none => none

/-- `CompetitorScraper.scrape_website` (scraper.py lines 82-126).  The
network fetch is abstracted as its outcome: `Except.ok soup` when the GET
and `raise_for_status` succeed, `Except.error e` carrying the exception
text when a `requests.RequestException` is raised.  On success the first
ten container matches are extracted and counted; on failure the snapshot
carries the error text, an empty article list and no article_count key. -/
def scrape_website (fetched : Except String (List Node)) (now : String)
    (c : Competitor) : Snapshot :=
  match fetched with
  | .ok soup =>
      let articles := ((soupSelect soup (c.selector.getD sel_article)).take 10).filterMap
        (fun el => extract_article_data el c)
      { competitor := c.name, url := c.url, timestamp := now,
        articles := articles, article_count := some articles.length,
        error := none }
  | .error e =>
      { competitor := c.name, url := c.url, timestamp := now,
        articles := [], article_count := none, error := some e }

/-- `CompetitorScraper.scrape_all` (scraper.py lines 161-174): every
configured competitor is scraped in turn and its snapshot appended (the
`if result` guard always passes, both branches of `scrape_website` return
a dict). -/
def scrape_all (fetch : Competitor → Except String (List Node)) (now : String)
    (cfg : Config) : List Snapshot :=
  cfg.competitors.foldl (fun results c => results ++ [scrape_website (fetch c) now c]) []

/-- The retryable statuses of the session built by
`CompetitorScraper._create_session` (scraper.py line 72):
`status_forcelist=(500, 502, 504)`. -/
def status_forcelist : List Nat := [500, 502, 504]

/-- One `session.get` under the `Retry(total=3, ...)` adapter of
`_create_session`: the list holds the status codes the server would answer
with on successive attempts.  A retryable status consumes one retry; a
non-retryable status is returned as the response; exhausting the retry
budget or the response list fails the request. -/
def sessionGetAux : Nat → List Nat → Except String Nat
  | _, [] => .error "connection error"
  | retries, s :: rest =>
      if s ∈ status_forcelist then
        match retries with
        | 0 => .error "max retries exceeded"
        | k + 1 => sessionGetAux k rest
      else .ok s

/-- `response.raise_for_status()`: any status of 400 or above raises a
`requests.HTTPError`. -/
def raise_for_status (s : Nat) : Except String Unit :=
  if 400 ≤ s then .error ("HTTP error " ++ toString s) else .ok ()

/-- The fetch performed by `scrape_website` through the retrying session:
run the GET, then `raise_for_status`, and yield the parsed document on
success. -/
def fetchPage (statuses : List Nat) (body : List Node) :
    Except String (List Node) :=
  match sessionGetAux 3 statuses with
  | .error e => .error e
  | .ok s =>
      match raise_for_status s with
      | .error e => .error e
      | .ok _ => .ok body

/-- The competitor entry of `CompetitorScraper._get_default_config`
(scraper.py lines 48-62). -/
def default_competitor : Competitor :=
  { name := "OpenAI", url := "https://openai.com/blog",
    selector := some sel_article, title_selector := some sel_h2h3,
    date_selector := some sel_time, content_selector := some sel_p }

/-- `CompetitorScraper._get_default_config` (scraper.py lines 46-62). -/
def get_default_config : Config :=
  { competitors := [default_competitor], request_timeout := 30,
    rate_limit_delay := 2, user_agent := "AI-Competitor-Tracker/1.0" }

/-- The state of the configuration file as `_load_config` sees it: absent
(`open` raises `FileNotFoundError`), or present with the outcome of
`json.load` (a parsed configuration, or a `JSONDecodeError` text). -/
inductive ConfigFile where
  | absent
  | present (parsed : Except String Config)

/-- `CompetitorScraper._load_config` (scraper.py lines 37-44): a missing
file is recovered with the default configuration; any error raised by
`json.load` on a present file is not caught and propagates. -/
def load_config : ConfigFile → Except String Config
  | .absent => .ok get_default_config
  | .present (.ok cfg) => .ok cfg
  | .present (.error e) => .error e

/-!
Embedding of google_scraper.py.
-/

/-- An article dict produced by GoogleAIScraper.  `category` is `none`
both for an absent key and for a present `None` value (the dict-key
distinction is collapsed; no claim depends on it). -/
structure GArticle where
  title : String
  link : Option String
  date : Option String
  content_preview : Option String
  category : Option String
  source : String
deriving DecidableEq, Repr

/-- A snapshot dict produced by GoogleAIScraper.  As in scraper.py,
`article_count` is absent (`none`) on the error branch. -/
structure GSnapshot where
  competitor : String
  source : String
  url : String
  timestamp : String
  articles : List GArticle
  article_count : Option Nat
  error : Option String
deriving DecidableEq, Repr

/-- The `title_selectors` list of `_extract_google_article`
(google_scraper.py line 174). -/
def google_title_selectors : List Selector :=
  [[⟨some "h2", []⟩], [⟨some "h3", []⟩], [⟨some "h4", []⟩],
   [⟨none, [.classToken "headline"]⟩],
   [⟨none, [.attrContains "class" "title"]⟩],
   [⟨some "a", []⟩]]

/-- The `date_selectors` list of `_extract_google_article`
(google_scraper.py line 195). -/
def google_date_selectors : List Selector :=
  [sel_time, [⟨none, [.hasAttr "datetime"]⟩],
   [⟨none, [.attrContains "class" "date"]⟩],
   [⟨none, [.attrContains "class" "time"]⟩]]

/-- The `content_selectors` list of `_extract_google_article`
(google_scraper.py line 204). -/
def google_content_selectors : List Selector :=
  [[⟨some "p", []⟩], [⟨none, [.attrContains "class" "excerpt"]⟩],
   [⟨none, [.attrContains "class" "summary"]⟩],
   [⟨none, [.attrContains "class" "description"]⟩]]

/-- Selector string `[class*="category"], [class*="tag"]`
(google_scraper.py line 214). -/
def google_category_sel : Selector :=
  [⟨none, [.attrContains "class" "category"]⟩,
   ⟨none, [.attrContains "class" "tag"]⟩]

/-- The title loop of `_extract_google_article` (lines 173-180): each
selector in turn overwrites the running title with the text of its first
match; the loop stops early only when that text is non-empty and longer
than 10 code points. -/
def googleTitleLoop (el : Node) : List Selector → Option String → Option String
  | [], title => title
  | s :: rest, title =>
      match el.selectOne s with
      | some te =>
          let t := te.text
          if t != "" && pyLen t > 10 then some t
          else googleTitleLoop el rest (some t)
      | none => googleTitleLoop el rest title

/-- The date loop of `_extract_google_article` (lines 194-200): the first
selector with a match wins, and `get('datetime') or get_text(strip=True)`
yields the attribute when it is truthy, else the text. -/
def googleDateLoop (el : Node) : List Selector → Option String
  | [] => none
  | s :: rest =>
      match el.selectOne s with
      | some de =>
          some (match attrOf de.attrs "datetime" with
                | some d => if d != "" then d else de.text
                | none => de.text)
      | none => googleDateLoop el rest

/-- The content loop of `_extract_google_article` (lines 203-210): the
text of the first match of each selector, stopping at the first truthy
text (an exhausted loop whose last assigned text was empty leaves a falsy
content, which the dict then stores as `None`; returning `none` for both
cases is equivalent because the only use is `content[:500] if content else
None`). -/
def googleContentLoop (el : Node) : List Selector → Option String
  | [] => none
  | s :: rest =>
      match el.selectOne s with
      | some ce =>
          let c := ce.text
          if c != "" then some c else googleContentLoop el rest
      | none => googleContentLoop el rest

/-- Link extraction shared by `_extract_google_article` (lines 186-191)
and `_extract_deepmind_article` (lines 241-244): the href of the first
`a[href]` match, resolved against the base URL when truthy and not
starting with "http". -/
def googleLinkOf (el : Node) (base : String) : Option String :=
  match el.selectOne sel_a_href with
  | some le =>
      match attrOf le.attrs "href" with
      | some h =>
          if h != "" && !(pyStartsWith h "http") then some (urljoin base h)
          else some h
      | none => none
  | none => none

/-- `GoogleAIScraper._extract_google_article` (lines 169-229). -/
def extract_google_article (el : Node) (base : String) : Option GArticle :=
  match googleTitleLoop el google_title_selectors none with
  | none => none
  | some t =>
      if t != "" then
        some { title := t,
               link := googleLinkOf el base,
               date := googleDateLoop el google_date_selectors,
               content_preview :=
                 (googleContentLoop el google_content_selectors).map
                   (fun c => pySlice c 500),
               category := (el.selectOne google_category_sel).map Node.text,
               source := "Google AI Blog" }
      else none

/-- Selector string `h2, h3, a[href*="/blog/"]` (title lookup of
`_extract_deepmind_article`, line 235). -/
def deepmind_title_sel : Selector :=
  [⟨some "h2", []⟩, ⟨some "h3", []⟩,
   ⟨some "a", [.attrContains "href" "/blog/"]⟩]

/-- Selector string `time, [class*="date"]` (line 246). -/
def deepmind_date_sel : Selector :=
  [⟨some "time", []⟩, ⟨none, [.attrContains "class" "date"]⟩]

/-- Selector string `p, [class*="summary"]` (line 249). -/
def deepmind_content_sel : Selector :=
  [⟨some "p", []⟩, ⟨none, [.attrContains "class" "summary"]⟩]

/-- `GoogleAIScraper._extract_deepmind_article` (lines 231-262).  The date
is always the visible text of the first date match; the `datetime`
attribute is never read here. -/
def extract_deepmind_article (el : Node) (base : String) : Option GArticle :=
  let title := (el.selectOne deepmind_title_sel).map Node.text
  match title with
  | none => none
  | some t =>
      if t = "" || pyLen t < 10 then none
      else
        some { title := t,
               link := googleLinkOf el base,
               date := (el.selectOne deepmind_date_sel).map Node.text,
               content_preview :=
                 (el.selectOne deepmind_content_sel).bind
                   (fun ce => if ce.text != "" then some (pySlice ce.text 500) else none),
               category := none,
               source := "DeepMind" }

/-- All nodes of a forest paired with their parent (`none` for a
top-level node), in document order; models the `.parent` navigation used
by `_extract_from_link`. -/
def nodesWithParents (parent : Option Node) : List Node → List (Option Node × Node)
  | [] => []
  | .elem t a s cs :: rest =>
      (parent, .elem t a s cs) ::
        (nodesWithParents (some (.elem t a s cs)) cs ++ nodesWithParents parent rest)

/-- `soup.find_all('a', href=re.compile(r'/technology/ai/.*'))`
(google_scraper.py line 79): the anchors whose href contains the literal
prefix of the pattern, paired with their parents. -/
def googleAiAnchors (soup : List Node) : List (Option Node × Node) :=
  (nodesWithParents none soup).filter
    (fun pn =>
      pn.snd.tag == "a" &&
        (match attrOf pn.snd.attrs "href" with
         | some h => strContains h "/technology/ai/"
         | none => false))

/-- `GoogleAIScraper._extract_from_link` (lines 264-299). -/
def extract_from_link (parent : Option Node) (ln : Node) (base : String) :
    Option GArticle :=
  let t := ln.text
  if t = "" || pyLen t < 10 then none
  else
    let href := match attrOf ln.attrs "href" with
      | some h =>
          if h != "" && !(pyStartsWith h "http") then some (urljoin base h)
          else some h
      | none => none
    let content := parent.bind (fun p => (p.selectOne sel_p).map Node.text)
    let date := parent.bind (fun p => (p.selectOne deepmind_date_sel).map Node.text)
    some { title := t,
           link := href,
           date := date,
           content_preview :=
             content.bind (fun c => if c != "" then some (pySlice c 500) else none),
           category := none,
           source := "Google AI" }

/-- The duplicate-removal loop shared verbatim by
`GoogleAIScraper._remove_duplicates` (lines 301-309) and the inline loop
of `scrape_google_ai_blog` (lines 86-91): keep an article when its title
has not been seen yet. -/
def dedupeGTitlesAux (seen : List String) : List GArticle → List GArticle
  | [] => []
  | a :: rest =>
      if a.title ∈ seen then dedupeGTitlesAux seen rest
      else a :: dedupeGTitlesAux (a.title :: seen) rest

/-- `GoogleAIScraper._remove_duplicates` (lines 301-309). -/
def remove_duplicates (articles : List GArticle) : List GArticle :=
  dedupeGTitlesAux [] articles

/-- The `article_selectors` list of `scrape_google_ai_blog` (lines 59-66). -/
def google_article_selectors : List Selector :=
  [[⟨some "article", []⟩],
   [⟨some "div", [.classToken "glue-grid__col"]⟩],
   [⟨some "div", [.attrContains "class" "article"]⟩],
   [⟨some "div", [.attrContains "class" "post"]⟩],
   [⟨some "div", [.classToken "uni-article-card"]⟩],
   [⟨some "a", [.attrContains "href" "/technology/ai/"]⟩]]

/-- The `article_selectors` list of `scrape_deepmind` (lines 129-134). -/
def deepmind_article_selectors : List Selector :=
  [[⟨some "article", []⟩],
   [⟨some "div", [.attrContains "class" "post"]⟩],
   [⟨some "div", [.attrContains "class" "blog"]⟩],
   [⟨some "a", [.attrContains "href" "/blog/"]⟩]]

/-- The URL `self.base_urls['google_ai_blog']`. -/
def google_blog_url : String := "https://blog.google/technology/ai/"

/-- The URL `self.base_urls['deepmind']`. -/
def deepmind_url : String := "https://deepmind.google/discover/blog/"

/-- `GoogleAIScraper.scrape_google_ai_blog` (lines 46-114), with the fetch
abstracted as its outcome.  On success: every selector pass appends the
extracted articles of its first fifteen matches, skipping exact-dict
duplicates; when fewer than five articles were found, raw
`/technology/ai/` anchors are scanned as a booster; titles are then
deduplicated, the stored list is capped at ten while `article_count`
counts all unique articles. -/
def scrape_google_ai_blog (fetched : Except String (List Node)) (now : String) :
    GSnapshot :=
  match fetched with
  | .error e =>
      { competitor := "Google AI", source := "Google AI Blog",
        url := google_blog_url, timestamp := now, articles := [],
        article_count := none, error := some e }
  | .ok soup =>
      let articles := google_article_selectors.foldl
        (fun acc sel =>
          ((soupSelect soup sel).take 15).foldl
            (fun acc2 el =>
              match extract_google_article el google_blog_url with
              | some a => if a ∈ acc2 then acc2 else acc2 ++ [a]
              | none => acc2) acc) []
      let articles := if articles.length < 5 then
          ((googleAiAnchors soup).take 10).foldl
            (fun acc pn =>
              match extract_from_link pn.fst pn.snd google_blog_url with
              | some a => if a ∈ acc then acc else acc ++ [a]
              | none => acc) articles
        else articles
      let unique_articles := dedupeGTitlesAux [] articles
      { competitor := "Google AI", source := "Google AI Blog",
        url := google_blog_url, timestamp := now,
        articles := unique_articles.take 10,
        article_count := some unique_articles.length, error := none }

/-- `GoogleAIScraper.scrape_deepmind` (lines 116-167), with the fetch
abstracted as its outcome.  Each selector pass appends the extractions of
its first ten matches (duplicates included); `_remove_duplicates` then
keys by title; the stored list is capped at ten while `article_count`
counts all unique articles. -/
def scrape_deepmind (fetched : Except String (List Node)) (now : String) :
    GSnapshot :=
  match fetched with
  | .error e =>
      { competitor := "Google AI", source := "DeepMind", url := deepmind_url,
        timestamp := now, articles := [], article_count := none,
        error := some e }
  | .ok soup =>
      let articles := deepmind_article_selectors.foldl
        (fun acc sel =>
          ((soupSelect soup sel).take 10).foldl
            (fun acc2 el =>
              match extract_deepmind_article el deepmind_url with
              | some a => acc2 ++ [a]
              | none => acc2) acc) []
      let unique_articles := remove_duplicates articles
      { competitor := "Google AI", source := "DeepMind", url := deepmind_url,
        timestamp := now, articles := unique_articles.take 10,
        article_count := some unique_articles.length, error := none }

/-!
Embedding of utils.py.
-/

/-- `truncate_text` (utils.py lines 103-111): empty text stays empty, text
within the cap is unchanged, longer text is cut to `max_length - 3` code
points with "..." appended (modelled for the caps of at least 3 actually
in scope; the source default is 500). -/
def truncate_text (text : String) (max_length : Nat) : String :=
  if text = "" then ""
  else if pyLen text ≤ max_length then text
  else pySlice text (max_length - 3) ++ "..."

/-- One data entry consumed by `merge_competitor_data` and
`calculate_statistics`: the optional fields model `dict.get` misses and
the presence test `'error' in data`. -/
structure SnapData where
  competitor : Option String
  articles : List Article
  timestamp : Option String
  error : Option String

/-- The merged dict built by `merge_competitor_data`. -/
structure MergedData where
  articles : List Article
  timestamps : List (Option String)
  errors : List String

/-- The deduplication loop of `merge_competitor_data` (utils.py lines
143-152): an article is kept when its title is truthy (present and
non-empty) and not seen before. -/
def mergeDedupeLoop (seen : List String) : List Article → List Article
  | [] => []
  | a :: rest =>
      match a.title with
      | some t =>
          if t ≠ "" ∧ t ∉ seen then a :: mergeDedupeLoop (t :: seen) rest
          else mergeDedupeLoop seen rest
      | none => mergeDedupeLoop seen rest

/-- `merge_competitor_data` (utils.py lines 129-153). -/
def merge_competitor_data (data_list : List SnapData) : MergedData :=
  let merged_articles := data_list.foldl (fun acc d => acc ++ d.articles) []
  let timestamps := data_list.map SnapData.timestamp
  let errors := data_list.foldl
    (fun acc d => match d.error with
                  | some e => acc ++ [e]
                  | none => acc) []
  { articles := mergeDedupeLoop [] merged_articles,
    timestamps := timestamps, errors := errors }

/-- The per-competitor entry of the statistics dict of
`calculate_statistics`. -/
structure CompStats where
  file_count : Nat
  article_count : Nat
  error_count : Nat
deriving DecidableEq, Repr

/-- The statistics dict of `calculate_statistics`; `competitors` is the
insertion-ordered dict, modelled as an association list with unique
keys. -/
structure Stats where
  total_files : Nat
  total_articles : Nat
  competitors : List (String × CompStats)
  range_start : Option String
  range_end : Option String
deriving DecidableEq, Repr

/-- Python truthiness of an optional string (absent and empty are falsy). -/
def truthyOpt : Option String → Bool
  | some v => v != ""
  | none => false

/-- Dict lookup in the `competitors` map. -/
def lookupComp (s : Stats) (c : String) : Option CompStats :=
  (s.competitors.find? (fun p => p.fst == c)).map Prod.snd

/-- The body of the per-file loop of `calculate_statistics` (utils.py
lines 173-199) for one loaded entry: insert the zero entry when the
competitor is new, bump its three counters, add to the global article
count, and update the capture range by string comparison, guarded by the
truthiness tests of the source. -/
def statsStep (s : Stats) (d : Option SnapData) : Stats :=
  match d with
  | none => s
  | some data =>
      let competitor := data.competitor.getD "Unknown"
      let articles := data.articles
      let comps0 := if (s.competitors.find? (fun p => p.fst == competitor)).isSome
        then s.competitors
        else s.competitors ++ [(competitor, ⟨0, 0, 0⟩)]
      let comps := comps0.map (fun p =>
        if p.fst == competitor then
          (p.fst, CompStats.mk (p.snd.file_count + 1)
            (p.snd.article_count + articles.length)
            (p.snd.error_count + if data.error.isSome then 1 else 0))
        else p)
      let range_start := match data.timestamp with
        | some ts =>
            if ts != "" then
              if !(truthyOpt s.range_start) then some ts
              else if pyStrLt ts (s.range_start.getD "") then some ts
              else s.range_start
            else s.range_start
        | none => s.range_start
      let range_end := match data.timestamp with
        | some ts =>
            if ts != "" then
              if !(truthyOpt s.range_end) then some ts
              else if pyStrLt (s.range_end.getD "") ts then some ts
              else s.range_end
            else s.range_end
        | none => s.range_end
      { total_files := s.total_files,
        total_articles := s.total_articles + articles.length,
        competitors := comps,
        range_start := range_start, range_end := range_end }

/-- `calculate_statistics` (utils.py lines 156-201), over the outcomes of
`load_json_file` for the files of the data directory (`none` when loading
failed). -/
def calculate_statistics (files : List (Option SnapData)) : Stats :=
  files.foldl statsStep
    { total_files := files.length, total_articles := 0, competitors := [],
      range_start := none, range_end := none }

/-!
Lemmas about the two title-deduplication loops.
-/

/-- Skipping a seen title in the GoogleAIScraper loop. -/
theorem dedupeGTitlesAux_cons_mem {seen : List String} {a : GArticle}
    {l : List GArticle} (h : a.title ∈ seen) :
    dedupeGTitlesAux seen (a :: l) = dedupeGTitlesAux seen l := by
  simp [dedupeGTitlesAux, h]

/-- Keeping an unseen title in the GoogleAIScraper loop. -/
theorem dedupeGTitlesAux_cons_not_mem {seen : List String} {a : GArticle}
    {l : List GArticle} (h : a.title ∉ seen) :
    dedupeGTitlesAux seen (a :: l) = a :: dedupeGTitlesAux (a.title :: seen) l := by
  simp [dedupeGTitlesAux, h]

/-- The GoogleAIScraper deduplication loop is idempotent. -/
theorem dedupeGTitlesAux_idem (l : List GArticle) :
    ∀ seen, dedupeGTitlesAux seen (dedupeGTitlesAux seen l) = dedupeGTitlesAux seen l := by
  induction l with
  | nil => intro seen; rfl
  | cons a l ih =>
      intro seen
      by_cases h : a.title ∈ seen
      · rw [dedupeGTitlesAux_cons_mem h, ih]
      · rw [dedupeGTitlesAux_cons_not_mem h, dedupeGTitlesAux_cons_not_mem h, ih]

/-- The output of the GoogleAIScraper loop is a sublist of its input. -/
theorem dedupeGTitlesAux_sublist (l : List GArticle) :
    ∀ seen, List.Sublist (dedupeGTitlesAux seen l) l := by
  induction l with
  | nil => intro seen; exact List.Sublist.refl []
  | cons a l ih =>
      intro seen
      by_cases h : a.title ∈ seen
      · rw [dedupeGTitlesAux_cons_mem h]; exact (ih seen).cons a
      · rw [dedupeGTitlesAux_cons_not_mem h]; exact (ih _).cons₂ a

/-- The records with a given title surviving the GoogleAIScraper loop:
none when the title was already seen, else exactly the first input record
bearing it, unchanged. -/
theorem dedupeGTitlesAux_filter (t : String) (l : List GArticle) :
    ∀ seen, (dedupeGTitlesAux seen l).filter (fun a => a.title == t) =
      if t ∈ seen then [] else (l.filter (fun a => a.title == t)).take 1 := by
  induction l with
  | nil => intro seen; by_cases h : t ∈ seen <;> simp [dedupeGTitlesAux, h]
  | cons a l ih =>
      intro seen
      by_cases hs : a.title ∈ seen
      · rw [dedupeGTitlesAux_cons_mem hs, ih]
        by_cases ht : a.title = t
        · subst ht; simp [hs]
        · simp [List.filter_cons, ht]
      · rw [dedupeGTitlesAux_cons_not_mem hs]
        by_cases ht : a.title = t
        · subst ht
          simp [List.filter_cons, ih, hs]
        · have hbeq : (a.title == t) = false := beq_eq_false_iff_ne.mpr ht
          have hmem : t ∈ a.title :: seen ↔ t ∈ seen :=
            ⟨fun h => (List.mem_cons.mp h).elim (fun h2 => absurd h2.symm ht) id,
             fun h => List.mem_cons.mpr (Or.inr h)⟩
          simp [List.filter_cons, hbeq, ih, hmem]

/-- Skipping an article without a title in the merge loop. -/
theorem mergeDedupeLoop_cons_none {seen : List String} {a : Article}
    {l : List Article} (h : a.title = none) :
    mergeDedupeLoop seen (a :: l) = mergeDedupeLoop seen l := by
  simp [mergeDedupeLoop, h]

/-- Keeping an article with a fresh non-empty title in the merge loop. -/
theorem mergeDedupeLoop_cons_keep {seen : List String} {a : Article}
    {l : List Article} {t : String} (h : a.title = some t) (h1 : t ≠ "")
    (h2 : t ∉ seen) :
    mergeDedupeLoop seen (a :: l) = a :: mergeDedupeLoop (t :: seen) l := by
  simp [mergeDedupeLoop, h, h1, h2]

/-- Skipping an article whose title is empty or already seen. -/
theorem mergeDedupeLoop_cons_skip {seen : List String} {a : Article}
    {l : List Article} {t : String} (h : a.title = some t)
    (hc : ¬(t ≠ "" ∧ t ∉ seen)) :
    mergeDedupeLoop seen (a :: l) = mergeDedupeLoop seen l := by
  simp [mergeDedupeLoop, h, hc]

/-- The merge deduplication loop is idempotent. -/
theorem mergeDedupeLoop_idem (l : List Article) :
    ∀ seen, mergeDedupeLoop seen (mergeDedupeLoop seen l) = mergeDedupeLoop seen l := by
  induction l with
  | nil => intro seen; rfl
  | cons a l ih =>
      intro seen
      cases h : a.title with
      | none => rw [mergeDedupeLoop_cons_none h, ih]
      | some u =>
          by_cases hc : u ≠ "" ∧ u ∉ seen
          · rw [mergeDedupeLoop_cons_keep h hc.1 hc.2,
                mergeDedupeLoop_cons_keep h hc.1 hc.2, ih]
          · rw [mergeDedupeLoop_cons_skip h hc, ih]

/-- The output of the merge loop is a sublist of its input. -/
theorem mergeDedupeLoop_sublist (l : List Article) :
    ∀ seen, List.Sublist (mergeDedupeLoop seen l) l := by
  induction l with
  | nil => intro seen; exact List.Sublist.refl []
  | cons a l ih =>
      intro seen
      cases h : a.title with
      | none => rw [mergeDedupeLoop_cons_none h]; exact (ih seen).cons a
      | some u =>
          by_cases hc : u ≠ "" ∧ u ∉ seen
          · rw [mergeDedupeLoop_cons_keep h hc.1 hc.2]; exact (ih _).cons₂ a
          · rw [mergeDedupeLoop_cons_skip h hc]; exact (ih seen).cons a

/-- The records with a given non-empty title surviving the merge loop:
none when the title was already seen, else exactly the first input record
bearing it, unchanged. -/
theorem mergeDedupeLoop_filter {t : String} (ht : t ≠ "") (l : List Article) :
    ∀ seen, (mergeDedupeLoop seen l).filter (fun a => a.title == some t) =
      if t ∈ seen then [] else (l.filter (fun a => a.title == some t)).take 1 := by
  induction l with
  | nil => intro seen; by_cases h : t ∈ seen <;> simp [mergeDedupeLoop, h]
  | cons a l ih =>
      intro seen
      cases h : a.title with
      | none =>
          rw [mergeDedupeLoop_cons_none h]
          have hbeq : (a.title == some t) = false := by simp [h]
          simp [List.filter_cons, hbeq, ih]
      | some u =>
          by_cases hc : u ≠ "" ∧ u ∉ seen
          · by_cases hut : u = t
            · subst hut
              rw [mergeDedupeLoop_cons_keep h hc.1 hc.2]
              have hbeq : (a.title == some u) = true := by simp [h]
              simp [List.filter_cons, hbeq, ih, hc.2]
            · rw [mergeDedupeLoop_cons_keep h hc.1 hc.2]
              have hbeq : (a.title == some t) = false := by simp [h, hut]
              have hmem : t ∈ u :: seen ↔ t ∈ seen :=
                ⟨fun hm => (List.mem_cons.mp hm).elim
                   (fun h2 => absurd h2.symm hut) id,
                 fun hm => List.mem_cons.mpr (Or.inr hm)⟩
              simp [List.filter_cons, hbeq, ih, hmem]
          · rw [mergeDedupeLoop_cons_skip h hc]
            by_cases hut : u = t
            · subst hut
              have hts : u ∈ seen := by
                rcases not_and_or.mp hc with h1 | h2
                · exact absurd (not_not.mp h1) ht
                · exact not_not.mp h2
              have hbeq : (a.title == some u) = true := by simp [h]
              simp [List.filter_cons, hbeq, ih, hts]
            · have hbeq : (a.title == some t) = false := by simp [h, hut]
              simp [List.filter_cons, hbeq, ih]

/-- Every article surviving the merge loop has a present, non-empty
title. -/
theorem mergeDedupeLoop_mem_title {a : Article} (l : List Article) :
    ∀ seen, a ∈ mergeDedupeLoop seen l → ∃ t, a.title = some t ∧ t ≠ "" := by
  induction l with
  | nil => intro seen h; simp [mergeDedupeLoop] at h
  | cons b l ih =>
      intro seen h
      cases hb : b.title with
      | none =>
          rw [mergeDedupeLoop_cons_none hb] at h
          exact ih seen h
      | some u =>
          by_cases hc : u ≠ "" ∧ u ∉ seen
          · rw [mergeDedupeLoop_cons_keep hb hc.1 hc.2] at h
            rcases List.mem_cons.mp h with h1 | h2
            · exact ⟨u, h1 ▸ hb, hc.1⟩
            · exact ih _ h2
          · rw [mergeDedupeLoop_cons_skip hb hc] at h
            exact ih seen h

/-!
Claim theorems.
-/

/-- C1: both title deduplications (the loop of `merge_competitor_data` in
utils.py and `_remove_duplicates` in google_scraper.py) are idempotent and
order-preserving with first-occurrence-wins: the output is a sublist of
the input, and for any (non-empty, for the merge loop, whose key is the
truthy title) exact case-sensitive title the output holds exactly the
first input record bearing it, fields unchanged, all later records with an
equal title being discarded. -/
theorem C1_dedupe_idempotent_first_wins (R : List Article) (G : List GArticle)
    (t : String) (ht : t ≠ "") :
    mergeDedupeLoop [] (mergeDedupeLoop [] R) = mergeDedupeLoop [] R ∧
    remove_duplicates (remove_duplicates G) = remove_duplicates G ∧
    List.Sublist (mergeDedupeLoop [] R) R ∧
    List.Sublist (remove_duplicates G) G ∧
    (mergeDedupeLoop [] R).filter (fun a => a.title == some t) =
      (R.filter (fun a => a.title == some t)).take 1 ∧
    (remove_duplicates G).filter (fun a => a.title == t) =
      (G.filter (fun a => a.title == t)).take 1 := by
  refine ⟨mergeDedupeLoop_idem R [], dedupeGTitlesAux_idem _ [],
    mergeDedupeLoop_sublist R [], dedupeGTitlesAux_sublist G [], ?_, ?_⟩
  · have h := mergeDedupeLoop_filter ht R []
    simpa using h
  · have h := dedupeGTitlesAux_filter t G []
    simpa using h

/-- Witness for C1 at a concrete record list with a repeated title. -/
theorem C1_dedupe_idempotent_first_wins_witness :
    ("Example title" : String) ≠ "" ∧
    (mergeDedupeLoop []
        (mergeDedupeLoop [] [Article.mk (some "Example title") none none none,
          Article.mk (some "Example title") (some "2024") none none]) =
      mergeDedupeLoop [] [Article.mk (some "Example title") none none none,
        Article.mk (some "Example title") (some "2024") none none] ∧
    remove_duplicates (remove_duplicates
        [GArticle.mk "Example title" none none none none "DeepMind"]) =
      remove_duplicates [GArticle.mk "Example title" none none none none "DeepMind"] ∧
    List.Sublist (mergeDedupeLoop [] [Article.mk (some "Example title") none none none,
        Article.mk (some "Example title") (some "2024") none none])
      [Article.mk (some "Example title") none none none,
        Article.mk (some "Example title") (some "2024") none none] ∧
    List.Sublist (remove_duplicates
        [GArticle.mk "Example title" none none none none "DeepMind"])
      [GArticle.mk "Example title" none none none none "DeepMind"] ∧
    (mergeDedupeLoop [] [Article.mk (some "Example title") none none none,
        Article.mk (some "Example title") (some "2024") none none]).filter
        (fun a => a.title == some "Example title") =
      ([Article.mk (some "Example title") none none none,
        Article.mk (some "Example title") (some "2024") none none].filter
        (fun a => a.title == some "Example title")).take 1 ∧
    (remove_duplicates [GArticle.mk "Example title" none none none none "DeepMind"]).filter
        (fun a => a.title == "Example title") =
      ([GArticle.mk "Example title" none none none none "DeepMind"].filter
        (fun a => a.title == "Example title")).take 1) :=
  ⟨by decide,
   C1_dedupe_idempotent_first_wins
     [Article.mk (some "Example title") none none none,
      Article.mk (some "Example title") (some "2024") none none]
     [GArticle.mk "Example title" none none none none "DeepMind"]
     "Example title" (by decide)⟩

/-- C9: every article in the merged output of `merge_competitor_data` has
a present, non-empty title; input articles with a missing or empty title
never reach the output, duplicate or not. -/
theorem C9_merged_titles_truthy (L : List SnapData) (a : Article)
    (ha : a ∈ (merge_competitor_data L).articles) :
    ∃ t, a.title = some t ∧ t ≠ "" := by
  unfold merge_competitor_data at ha
  exact mergeDedupeLoop_mem_title _ [] ha

/-- Witness for C9: a concrete merge whose output contains an article. -/
theorem C9_merged_titles_truthy_witness :
    (Article.mk (some "Kept title") none none none ∈
      (merge_competitor_data
        [SnapData.mk (some "OpenAI")
          [Article.mk none none none none,
           Article.mk (some "") none none none,
           Article.mk (some "Kept title") none none none]
          (some "2024-01-01") none]).articles) ∧
    (∃ t, (Article.mk (some "Kept title") none none none).title = some t ∧ t ≠ "") :=
  ⟨by decide,
   C9_merged_titles_truthy
     [SnapData.mk (some "OpenAI")
       [Article.mk none none none none,
        Article.mk (some "") none none none,
        Article.mk (some "Kept title") none none none]
       (some "2024-01-01") none]
     (Article.mk (some "Kept title") none none none) (by decide)⟩

/-- Folding snoc over a list is append of the map. -/
theorem foldl_snoc_eq_map {α β : Type} (g : α → β) (l : List α) :
    ∀ init : List β, l.foldl (fun r c => r ++ [g c]) init = init ++ l.map g := by
  induction l with
  | nil => intro init; simp
  | cons a l ih => intro init; simp [List.foldl_cons, ih]

/-- C2: a failed fetch (any `requests.RequestException`, and in particular
the `raise_for_status` failure produced when the server answers HTTP 503 —
which the retry adapter does not retry — three consecutive times) makes
`scrape_website` return a snapshot whose error field is the failure text
and whose articles list is empty, and `scrape_all` stays total: it records
one snapshot per configured competitor and continues past failures. -/
theorem C2_fetch_failure_snapshot (e now : String) (c : Competitor)
    (f : Competitor → Except String (List Node)) (cfg : Config)
    (statuses : List Nat) (body : List Node) :
    scrape_website (.error e) now c =
      { competitor := c.name, url := c.url, timestamp := now, articles := [],
        article_count := none, error := some e } ∧
    (scrape_website (.error e) now c).error = some e ∧
    (scrape_website (.error e) now c).articles = [] ∧
    scrape_all f now cfg =
      cfg.competitors.map (fun c => scrape_website (f c) now c) ∧
    (scrape_all f now cfg).length = cfg.competitors.length ∧
    fetchPage (503 :: statuses) body = .error "HTTP error 503" := by
  refine ⟨rfl, rfl, rfl, ?_, ?_, rfl⟩
  · unfold scrape_all
    simpa using foldl_snoc_eq_map (fun c => scrape_website (f c) now c)
      cfg.competitors []
  · unfold scrape_all
    rw [foldl_snoc_eq_map (fun c => scrape_website (f c) now c) cfg.competitors []]
    simp

/-- C8: a missing configuration file recovers to the built-in default
configuration, which contains exactly one competitor entry; a present file
with malformed JSON propagates the parse error to the caller. -/
theorem C8_config_missing_vs_malformed :
    load_config .absent = .ok get_default_config ∧
    get_default_config.competitors = [default_competitor] ∧
    get_default_config.competitors.length = 1 ∧
    (∀ e, load_config (.present (.error e)) = .error e) ∧
    (∀ cfg, load_config (.present (.ok cfg)) = .ok cfg) :=
  ⟨rfl, rfl, rfl, fun _ => rfl, fun _ => rfl⟩

/-!
Field characterizations of the three extraction routines, by inversion of
a successful extraction.
-/

/-- The content preview stored by `_extract_article_data`. -/
theorem extract_article_data_content {el : Node} {c : Competitor} {rec : Article}
    (h : extract_article_data el c = some rec) :
    rec.content_preview =
      (if (contentOf el c) != "" then some (pySlice (contentOf el c) 500) else none) := by
  simp only [extract_article_data] at h
  split at h
  · split at h
    · cases h; rfl
    · cases h
  · cases h

/-- The date stored by `_extract_article_data`: the `datetime` attribute
of the first date-selector match, defaulting to its visible text. -/
theorem extract_article_data_date {el : Node} {c : Competitor} {rec : Article}
    (h : extract_article_data el c = some rec) :
    rec.date = (el.selectOne (c.date_selector.getD sel_time)).map
      (fun de => (attrOf de.attrs "datetime").getD de.text) := by
  simp only [extract_article_data] at h
  split at h
  · split at h
    · cases h; rfl
    · cases h
  · cases h

/-- The link stored by `_extract_article_data`: the href of the first
anchor (whether or not that anchor has one), resolved when relative. -/
theorem extract_article_data_link {el : Node} {c : Competitor} {rec : Article}
    (h : extract_article_data el c = some rec) :
    rec.link = (match (el.selectOne sel_a).bind (fun le => attrOf le.attrs "href") with
      | some hr =>
          if hr != "" && !(pyStartsWith hr "http") then some (urljoin c.url hr)
          else some hr
      | none => none) := by
  simp only [extract_article_data] at h
  split at h
  · split at h
    · cases h; rfl
    · cases h
  · cases h

/-- `_extract_article_data` discards a container exactly when the title is
falsy: no title-selector match, or a match with empty text. -/
theorem extract_article_data_none_iff (el : Node) (c : Competitor) :
    extract_article_data el c = none ↔
      ((el.selectOne (c.title_selector.getD sel_h2h3)).map Node.text = none ∨
       (el.selectOne (c.title_selector.getD sel_h2h3)).map Node.text = some "") := by
  simp only [extract_article_data]
  constructor
  · intro h
    split at h
    · rename_i t heq
      split at h
      · cases h
      · rename_i hne
        right
        rw [heq]
        simp only [bne_iff_ne, ne_eq, not_not] at hne
        rw [hne]
    · rename_i heq
      left; rw [heq]
  · intro h
    rcases h with h | h
    · rw [h]
    · rw [h]
      simp

/-- Inversion of a successful `_extract_google_article`: the fields come
from the four lookup loops and the title is the truthy loop result. -/
theorem extract_google_article_fields {el : Node} {base : String} {rec : GArticle}
    (h : extract_google_article el base = some rec) :
    googleTitleLoop el google_title_selectors none = some rec.title ∧
    rec.title ≠ "" ∧
    rec.link = googleLinkOf el base ∧
    rec.date = googleDateLoop el google_date_selectors ∧
    rec.content_preview =
      (googleContentLoop el google_content_selectors).map (fun cs => pySlice cs 500) := by
  simp only [extract_google_article] at h
  split at h
  · cases h
  · rename_i t heq
    split at h
    · rename_i hne
      cases h
      exact ⟨heq, by simpa using hne, rfl, rfl, rfl⟩
    · cases h

/-- `_extract_google_article` discards a container exactly when the title
loop ends falsy: the heuristic length threshold only stops the loop early,
it does not filter a short final candidate. -/
theorem extract_google_article_none_iff (el : Node) (base : String) :
    extract_google_article el base = none ↔
      (googleTitleLoop el google_title_selectors none = none ∨
       googleTitleLoop el google_title_selectors none = some "") := by
  simp only [extract_google_article]
  constructor
  · intro h
    split at h
    · rename_i heq
      left; rw [heq]
    · rename_i t heq
      split at h
      · cases h
      · rename_i hne
        right
        rw [heq]
        simp only [bne_iff_ne, ne_eq, not_not] at hne
        rw [hne]
  · intro h
    rcases h with h | h
    · rw [h]
    · rw [h]
      simp

/-- Inversion of a successful `_extract_deepmind_article`: the title is
the text of the first title match, at least 10 code points long, the date
is the visible text of the first date match, and the link comes from the
shared lookup. -/
theorem extract_deepmind_article_fields {el : Node} {base : String} {rec : GArticle}
    (h : extract_deepmind_article el base = some rec) :
    (el.selectOne deepmind_title_sel).map Node.text = some rec.title ∧
    rec.title ≠ "" ∧ 10 ≤ pyLen rec.title ∧
    rec.link = googleLinkOf el base ∧
    rec.date = (el.selectOne deepmind_date_sel).map Node.text ∧
    rec.content_preview = (el.selectOne deepmind_content_sel).bind
      (fun ce => if ce.text != "" then some (pySlice ce.text 500) else none) := by
  simp only [extract_deepmind_article] at h
  split at h
  · cases h
  · rename_i t heq
    split at h
    · cases h
    · rename_i hcond
      simp only [Bool.or_eq_true, decide_eq_true_eq, not_or] at hcond
      cases h
      exact ⟨heq, hcond.1, Nat.le_of_not_lt hcond.2, rfl, rfl, rfl⟩

/-- `_extract_deepmind_article` discards a container whose extracted title
is shorter than 10 code points (and one with no title match at all). -/
theorem extract_deepmind_article_short_title (el : Node) (base : String) :
    ((el.selectOne deepmind_title_sel).map Node.text = none →
      extract_deepmind_article el base = none) ∧
    (∀ t, (el.selectOne deepmind_title_sel).map Node.text = some t →
      pyLen t < 10 → extract_deepmind_article el base = none) := by
  constructor
  · intro h
    simp only [extract_deepmind_article, h]
  · intro t h hlen
    simp [extract_deepmind_article, h, hlen]

/-- A paragraph node holding `n` copies of the letter x. -/
def para (n : Nat) : Node :=
  .elem "p" [] (String.mk (List.replicate n 'x')) []

/-- A container whose three paragraphs join to exactly 600 code points. -/
def content600_container : Node :=
  .elem "article" [] "t"
    [.elem "h2" [] "A sufficiently long title" [], para 200, para 199, para 199]

/-- C3: in every extraction routine the stored excerpt of a content text
of 600 units is exactly its first 500 units: plain prefix-taking at the
capture stage, with no ellipsis or other marker appended. -/
theorem C3_excerpt_plain_prefix :
    (∀ el c rec, extract_article_data el c = some rec →
       pyLen (contentOf el c) = 600 →
       ∃ p, rec.content_preview = some p ∧ pyLen p = 500 ∧
         p.data = (contentOf el c).data.take 500) ∧
    (∀ el base rec cs, extract_google_article el base = some rec →
       googleContentLoop el google_content_selectors = some cs →
       pyLen cs = 600 →
       ∃ p, rec.content_preview = some p ∧ pyLen p = 500 ∧
         p.data = cs.data.take 500) ∧
    (∀ el base rec ce, extract_deepmind_article el base = some rec →
       el.selectOne deepmind_content_sel = some ce →
       pyLen ce.text = 600 →
       ∃ p, rec.content_preview = some p ∧ pyLen p = 500 ∧
         p.data = ce.text.data.take 500) := by
  refine ⟨?_, ?_, ?_⟩
  · intro el c rec h h600
    have hne : ((contentOf el c) != "") = true := by
      rw [bne_iff_ne]
      intro hh
      rw [hh] at h600
      simp [pyLen] at h600
    refine ⟨pySlice (contentOf el c) 500, ?_, ?_, rfl⟩
    · rw [extract_article_data_content h, if_pos hne]
    · unfold pyLen at h600 ⊢
      simp only [pySlice, List.length_take, h600]
      decide
  · intro el base rec cs h hcs h600
    refine ⟨pySlice cs 500, ?_, ?_, rfl⟩
    · rw [(extract_google_article_fields h).2.2.2.2, hcs]
      rfl
    · unfold pyLen at h600 ⊢
      simp only [pySlice, List.length_take, h600]
      decide
  · intro el base rec ce h hce h600
    have hne : (ce.text != "") = true := by
      rw [bne_iff_ne]
      intro hh
      rw [hh] at h600
      simp [pyLen] at h600
    refine ⟨pySlice ce.text 500, ?_, ?_, rfl⟩
    · rw [(extract_deepmind_article_fields h).2.2.2.2.2, hce]
      simp [bne_iff_ne.mp hne]
    · unfold pyLen at h600 ⊢
      simp only [pySlice, List.length_take, h600]
      decide

set_option maxRecDepth 10000 in
/-- Witness for C3: a concrete container whose joined content has exactly
600 units. -/
theorem C3_excerpt_plain_prefix_witness :
    (extract_article_data content600_container default_competitor =
      some (Article.mk (some "A sufficiently long title") none
        (some (pySlice (String.intercalate " "
          [String.mk (List.replicate 200 'x'), String.mk (List.replicate 199 'x'),
           String.mk (List.replicate 199 'x')]) 500)) none)) ∧
    pyLen (contentOf content600_container default_competitor) = 600 ∧
    (∃ p, (Article.mk (some "A sufficiently long title") none
        (some (pySlice (String.intercalate " "
          [String.mk (List.replicate 200 'x'), String.mk (List.replicate 199 'x'),
           String.mk (List.replicate 199 'x')]) 500)) none).content_preview = some p ∧
      pyLen p = 500 ∧
      p.data = (contentOf content600_container default_competitor).data.take 500) :=
  ⟨by decide, by decide,
   C3_excerpt_plain_prefix.1 content600_container default_competitor
     (Article.mk (some "A sufficiently long title") none
        (some (pySlice (String.intercalate " "
          [String.mk (List.replicate 200 'x'), String.mk (List.replicate 199 'x'),
           String.mk (List.replicate 199 'x')]) 500)) none)
     (by decide) (by decide)⟩

/-- A time element carrying both a machine-readable datetime attribute and
visible text. -/
def dm_time_node : Node :=
  .elem "time" [("datetime", "2024-01-01")] "January 1, 2024" []

/-- A container holding a long title and the dual-form time element. -/
def c4_container : Node :=
  .elem "article" [] "t"
    [.elem "h2" [] "AI Breakthrough in Reasoning" [], dm_time_node]

/-- C4 counterexample: `_extract_deepmind_article` matches a date element
that carries datetime="2024-01-01" and visible text "January 1, 2024",
yet stores the visible text — the claim that every extraction routine
prefers the datetime attribute is false on this container. -/
theorem C4_counterexample :
    c4_container.selectOne deepmind_date_sel = some dm_time_node ∧
    attrOf dm_time_node.attrs "datetime" = some "2024-01-01" ∧
    (extract_deepmind_article c4_container deepmind_url).map GArticle.date =
      some (some "January 1, 2024") ∧
    ("January 1, 2024" : String) ≠ "2024-01-01" :=
  ⟨rfl, rfl, by decide, by decide⟩

/-- C4 amended: the generic extractor and the Google AI blog extractor
prefer the machine-readable datetime attribute of the matched date element
over its visible text (the Google loop requires the attribute to be
truthy), and on a `<time datetime="2024-01-01">` container both extract
"2024-01-01"; the DeepMind extractor instead always stores the visible
text of its matched date element. -/
theorem C4_datetime_preference_amended :
    (∀ el c rec de d, extract_article_data el c = some rec →
       el.selectOne (c.date_selector.getD sel_time) = some de →
       attrOf de.attrs "datetime" = some d → rec.date = some d) ∧
    (∀ el base rec de d, extract_google_article el base = some rec →
       el.selectOne sel_time = some de →
       attrOf de.attrs "datetime" = some d → d ≠ "" → rec.date = some d) ∧
    (∀ el base rec de, extract_deepmind_article el base = some rec →
       el.selectOne deepmind_date_sel = some de → rec.date = some de.text) ∧
    (extract_article_data c4_container default_competitor).map Article.date =
      some (some "2024-01-01") ∧
    (extract_google_article c4_container google_blog_url).map GArticle.date =
      some (some "2024-01-01") := by
  refine ⟨?_, ?_, ?_, by decide, by decide⟩
  · intro el c rec de d h hde hd
    rw [extract_article_data_date h, hde]
    simp [hd]
  · intro el base rec de d h hde hd hdne
    rw [(extract_google_article_fields h).2.2.2.1]
    simp [googleDateLoop, google_date_selectors, hde, hd, hdne]
  · intro el base rec de h hde
    rw [(extract_deepmind_article_fields h).2.2.2.2.1, hde]
    rfl

/-- Witness for C4 amended: the generic extractor on the concrete
dual-form container. -/
theorem C4_datetime_preference_amended_witness :
    (extract_article_data c4_container default_competitor =
      some (Article.mk (some "AI Breakthrough in Reasoning")
        (some "2024-01-01") none none)) ∧
    c4_container.selectOne
      (default_competitor.date_selector.getD sel_time) = some dm_time_node ∧
    attrOf dm_time_node.attrs "datetime" = some "2024-01-01" ∧
    (Article.mk (some "AI Breakthrough in Reasoning")
        (some "2024-01-01") none none).date = some "2024-01-01" :=
  ⟨by decide, rfl, rfl,
   C4_datetime_preference_amended.1 c4_container default_competitor
     (Article.mk (some "AI Breakthrough in Reasoning") (some "2024-01-01") none none)
     dm_time_node "2024-01-01" (by decide) rfl rfl⟩

/-- An anchor whose text is far below the 10-character threshold. -/
def g_anchor_node : Node := .elem "a" [("href", "/post")] "Read" []

/-- A container whose only title candidate is that short anchor. -/
def c5_container : Node := .elem "div" [("class", "post-card")] "Read" [g_anchor_node]

/-- C5 counterexample: in `_extract_google_article` the only matching
title selector yields the 4-character text "Read", below the minimum
length, yet a record is produced — the length threshold only stops the
selector loop early, it does not exclude the container. -/
theorem C5_counterexample :
    ((google_title_selectors.take 5).all
      (fun s => (c5_container.selectOne s).isNone)) = true ∧
    c5_container.selectOne sel_a = some g_anchor_node ∧
    g_anchor_node.text = "Read" ∧
    pyLen "Read" ≤ 10 ∧
    extract_google_article c5_container google_blog_url =
      some (GArticle.mk "Read" (some "https://blog.google/post") none none none
        "Google AI Blog") :=
  ⟨by decide, rfl, rfl, by decide, by decide⟩

/-- C5 amended: the DeepMind extractor does exclude containers whose only
title candidate is shorter than 10 code points (or has no candidate), and
the generic per-site extractor excludes exactly the containers with a
falsy title; but the Google AI extractor excludes a container only when
its title loop ends falsy — a short non-empty final candidate still
produces a record bearing that short title. -/
theorem C5_short_title_amended :
    (∀ el base t, (el.selectOne deepmind_title_sel).map Node.text = some t →
       pyLen t < 10 → extract_deepmind_article el base = none) ∧
    (∀ el base, el.selectOne deepmind_title_sel = none →
       extract_deepmind_article el base = none) ∧
    (∀ el c, extract_article_data el c = none ↔
       ((el.selectOne (c.title_selector.getD sel_h2h3)).map Node.text = none ∨
        (el.selectOne (c.title_selector.getD sel_h2h3)).map Node.text = some "")) ∧
    (∀ el base, extract_google_article el base = none ↔
       (googleTitleLoop el google_title_selectors none = none ∨
        googleTitleLoop el google_title_selectors none = some "")) ∧
    (∀ el base t, googleTitleLoop el google_title_selectors none = some t →
       t ≠ "" → ∃ rec, extract_google_article el base = some rec ∧ rec.title = t) := by
  refine ⟨?_, ?_, ?_, ?_, ?_⟩
  · intro el base t h hlen
    exact (extract_deepmind_article_short_title el base).2 t h hlen
  · intro el base h
    exact (extract_deepmind_article_short_title el base).1 (by rw [h]; rfl)
  · intro el c
    exact extract_article_data_none_iff el c
  · intro el base
    exact extract_google_article_none_iff el base
  · intro el base t hloop ht
    refine ⟨GArticle.mk t (googleLinkOf el base)
      (googleDateLoop el google_date_selectors)
      ((googleContentLoop el google_content_selectors).map (fun cs => pySlice cs 500))
      ((el.selectOne google_category_sel).map Node.text) "Google AI Blog", ?_, rfl⟩
    simp only [extract_google_article, hloop]
    rw [if_pos (bne_iff_ne.mpr ht)]

/-- Witness for C5 amended: the DeepMind extractor excludes a concrete
container whose only title is the 5-character "Short". -/
theorem C5_short_title_amended_witness :
    ((Node.elem "article" [] "t" [.elem "h2" [] "Short" []]).selectOne
      deepmind_title_sel).map Node.text = some "Short" ∧
    pyLen "Short" < 10 ∧
    extract_deepmind_article (Node.elem "article" [] "t"
      [.elem "h2" [] "Short" []]) deepmind_url = none :=
  ⟨by decide, by decide,
   C5_short_title_amended.1 (Node.elem "article" [] "t" [.elem "h2" [] "Short" []])
     deepmind_url "Short" (by decide) (by decide)⟩

/-- A competitor entry with no configured selectors, for the generic
extractor defaults. -/
def comp_example : Competitor :=
  { name := "Example", url := "https://example.com", selector := none,
    title_selector := none, date_selector := none, content_selector := none }

/-- A container whose first anchor has no href while a later anchor does. -/
def c6_container : Node :=
  .elem "article" [] "t"
    [.elem "h2" [] "Some long title here" [],
     .elem "a" [] "menu" [],
     .elem "a" [("href", "/blog/x")] "read more" []]

/-- C6 counterexample: `_extract_article_data` selects the first anchor —
which has no href — so the record's link is empty even though a later
anchor carries href="/blog/x"; the claim that link extraction selects the
first anchor with an href attribute is false for the generic extractor. -/
theorem C6_counterexample :
    c6_container.selectOne sel_a = some (Node.elem "a" [] "menu" []) ∧
    c6_container.selectOne sel_a_href =
      some (Node.elem "a" [("href", "/blog/x")] "read more" []) ∧
    extract_article_data c6_container comp_example =
      some (Article.mk (some "Some long title here") none none none) ∧
    (Article.mk (some "Some long title here") none none none).link ≠
      some (urljoin "https://example.com" "/blog/x") :=
  ⟨rfl, rfl, by decide, by decide⟩

/-- A container whose only anchor carries href="/blog/x". -/
def c6_g_container : Node :=
  .elem "div" [] "t"
    [.elem "h3" [] "A Google article headline" [],
     .elem "a" [("href", "/blog/x")] "link" []]

/-- C6 amended: the Google-family extractors select the first anchor with
an href attribute; the generic extractor selects the first anchor
outright and yields no link when that anchor has no href; in all of them
an href that does not start with "http" is resolved against the base URL
with urljoin, and "/blog/x" against "https://example.com" yields exactly
"https://example.com/blog/x". -/
theorem C6_link_resolution_amended :
    (∀ el base rec le hr, extract_google_article el base = some rec →
       el.selectOne sel_a_href = some le → attrOf le.attrs "href" = some hr →
       rec.link = some (if hr != "" && !(pyStartsWith hr "http")
         then urljoin base hr else hr)) ∧
    (∀ el base rec, extract_google_article el base = some rec →
       el.selectOne sel_a_href = none → rec.link = none) ∧
    (∀ el c rec le hr, extract_article_data el c = some rec →
       el.selectOne sel_a = some le → attrOf le.attrs "href" = some hr →
       rec.link = some (if hr != "" && !(pyStartsWith hr "http")
         then urljoin c.url hr else hr)) ∧
    (∀ el c rec le, extract_article_data el c = some rec →
       el.selectOne sel_a = some le → attrOf le.attrs "href" = none →
       rec.link = none) ∧
    urljoin "https://example.com" "/blog/x" = "https://example.com/blog/x" ∧
    (extract_google_article c6_g_container "https://example.com").map GArticle.link =
      some (some "https://example.com/blog/x") := by
  refine ⟨?_, ?_, ?_, ?_, by decide, by decide⟩
  · intro el base rec le hr h hle hh
    rw [(extract_google_article_fields h).2.2.1]
    simp only [googleLinkOf, hle, hh]
    split <;> rfl
  · intro el base rec h hle
    rw [(extract_google_article_fields h).2.2.1]
    simp [googleLinkOf, hle]
  · intro el c rec le hr h hle hh
    rw [extract_article_data_link h, hle]
    simp only [Option.some_bind, hh]
    split <;> rfl
  · intro el c rec le h hle hh
    rw [extract_article_data_link h, hle]
    simp [hh]

/-- Witness for C6 amended: the generic extractor resolves the concrete
relative href "/blog/x". -/
theorem C6_link_resolution_amended_witness :
    (extract_article_data (Node.elem "article" [] "t"
        [.elem "h2" [] "Witness title" [],
         .elem "a" [("href", "/blog/x")] "more" []]) comp_example =
      some (Article.mk (some "Witness title") none none
        (some "https://example.com/blog/x"))) ∧
    ((Node.elem "article" [] "t"
        [.elem "h2" [] "Witness title" [],
         .elem "a" [("href", "/blog/x")] "more" []]).selectOne sel_a =
      some (Node.elem "a" [("href", "/blog/x")] "more" [])) ∧
    attrOf (Node.elem "a" [("href", "/blog/x")] "more" []).attrs "href" =
      some "/blog/x" ∧
    (Article.mk (some "Witness title") none none
      (some "https://example.com/blog/x")).link =
      some (if ("/blog/x" != "") && !(pyStartsWith "/blog/x" "http")
        then urljoin comp_example.url "/blog/x" else "/blog/x") :=
  ⟨by decide, rfl, rfl,
   C6_link_resolution_amended.2.2.1 (Node.elem "article" [] "t"
       [.elem "h2" [] "Witness title" [],
        .elem "a" [("href", "/blog/x")] "more" []]) comp_example
     (Article.mk (some "Witness title") none none
       (some "https://example.com/blog/x"))
     (Node.elem "a" [("href", "/blog/x")] "more" []) "/blog/x"
     (by decide) rfl rfl⟩

/-- The dict-update map of `statsStep` preserves keys, so `find?` by key
commutes with it. -/
theorem find?_map_keyfix (g : String × CompStats → String × CompStats)
    (hg : ∀ p, (g p).fst = p.fst) (c : String) :
    ∀ l : List (String × CompStats),
      (l.map g).find? (fun p => p.fst == c) =
        (l.find? (fun p => p.fst == c)).map g := by
  intro l
  induction l with
  | nil => rfl
  | cons a l ih =>
      simp only [List.map_cons, List.find?_cons]
      cases h : (a.fst == c) with
      | true => simp [hg a, h]
      | false => simp [hg a, h, ih]

/-- `find?` by key over an appended singleton with a different key. -/
theorem find?_append_single_ne (c k : String) (v : CompStats) (hck : ¬(k = c)) :
    ∀ l : List (String × CompStats),
      (l ++ [(k, v)]).find? (fun p => p.fst == c) =
        l.find? (fun p => p.fst == c) := by
  intro l
  induction l with
  | nil =>
      have hb : (k == c) = false := beq_eq_false_iff_ne.mpr hck
      simp [List.find?_cons, hb]
  | cons a l ih =>
      simp only [List.cons_append, List.find?_cons]
      cases h : (a.fst == c) with
      | true => rfl
      | false => simpa [h] using ih

/-- `find?` by key over an appended singleton with the same key, when the
key is absent from the front list. -/
theorem find?_append_single_eq (c : String) (v : CompStats) :
    ∀ l : List (String × CompStats),
      l.find? (fun p => p.fst == c) = none →
      (l ++ [(c, v)]).find? (fun p => p.fst == c) = some (c, v) := by
  intro l
  induction l with
  | nil => simp [List.find?]
  | cons a l ih =>
      simp only [List.cons_append, List.find?_cons]
      cases h : (a.fst == c) with
      | true => intro hnone; simp [List.find?_cons, h] at hnone
      | false =>
          intro hnone
          simp only [List.find?_cons, h] at hnone
          simpa [h] using ih hnone

/-- Per-source bump of `statsStep`: the stepped statistics hold, for the
snapshot's own competitor, the previous entry (zero when new) with the
file count incremented, the article count increased by the snapshot's
article count, and the error count incremented exactly when the snapshot
carries an error. -/
theorem lookupComp_statsStep_self (s : Stats) (d : SnapData) :
    lookupComp (statsStep s (some d)) (d.competitor.getD "Unknown") =
      some (CompStats.mk
        (((lookupComp s (d.competitor.getD "Unknown")).getD ⟨0, 0, 0⟩).file_count + 1)
        (((lookupComp s (d.competitor.getD "Unknown")).getD ⟨0, 0, 0⟩).article_count +
          d.articles.length)
        (((lookupComp s (d.competitor.getD "Unknown")).getD ⟨0, 0, 0⟩).error_count +
          if d.error.isSome then 1 else 0)) := by
  have hg : ∀ p : String × CompStats,
      ((fun p => if p.fst == d.competitor.getD "Unknown" then
          (p.fst, CompStats.mk (p.snd.file_count + 1)
            (p.snd.article_count + d.articles.length)
            (p.snd.error_count + if d.error.isSome then 1 else 0))
        else p) p).fst = p.fst := by
    intro p
    by_cases h : (p.fst == d.competitor.getD "Unknown") = true <;> simp [h]
  simp only [statsStep, lookupComp]
  cases hfind : s.competitors.find?
      (fun p => p.fst == d.competitor.getD "Unknown") with
  | some pair =>
      have hp : (pair.fst == d.competitor.getD "Unknown") = true := by
        simpa using List.find?_some hfind
      simp only [hfind, Option.isSome_some, if_pos]
      rw [find?_map_keyfix _ hg, hfind]
      simp [beq_iff_eq.mp hp]
  | none =>
      simp only [hfind, Option.isSome_none, Bool.false_eq_true, if_false,
        List.map_append]
      rw [List.find?_append, find?_map_keyfix _ hg, hfind]
      simp

/-- `statsStep` leaves every other competitor's entry unchanged. -/
theorem lookupComp_statsStep_other (s : Stats) (d : SnapData) (c : String)
    (hne : ¬(c = d.competitor.getD "Unknown")) :
    lookupComp (statsStep s (some d)) c = lookupComp s c := by
  have hg : ∀ p : String × CompStats,
      ((fun p => if p.fst == d.competitor.getD "Unknown" then
          (p.fst, CompStats.mk (p.snd.file_count + 1)
            (p.snd.article_count + d.articles.length)
            (p.snd.error_count + if d.error.isSome then 1 else 0))
        else p) p).fst = p.fst := by
    intro p
    by_cases h : (p.fst == d.competitor.getD "Unknown") = true <;> simp [h]
  have hck : (d.competitor.getD "Unknown" == c) = false :=
    beq_eq_false_iff_ne.mpr (fun h => hne h.symm)
  simp only [statsStep, lookupComp]
  cases hfind : s.competitors.find?
      (fun p => p.fst == d.competitor.getD "Unknown") with
  | some pair =>
      simp only [hfind, Option.isSome_some, if_pos]
      rw [find?_map_keyfix _ hg]
      cases hc : s.competitors.find? (fun p => p.fst == c) with
      | some q =>
          have hq : (q.fst == c) = true := by simpa using List.find?_some hc
          have hqk : (q.fst == d.competitor.getD "Unknown") = false := by
            rw [beq_eq_false_iff_ne]
            intro hqeq
            exact hne ((beq_iff_eq.mp hq) ▸ hqeq)
          simp [hc, beq_eq_false_iff_ne.mp hqk]
      | none => simp [hc]
  | none =>
      simp only [hfind, Option.isSome_none, Bool.false_eq_true, if_false,
        List.map_append]
      rw [List.find?_append, find?_map_keyfix _ hg]
      cases hc : s.competitors.find? (fun p => p.fst == c) with
      | some q =>
          have hq : (q.fst == c) = true := by simpa using List.find?_some hc
          have hqk : (q.fst == d.competitor.getD "Unknown") = false := by
            rw [beq_eq_false_iff_ne]
            intro hqeq
            exact hne ((beq_iff_eq.mp hq) ▸ hqeq)
          simp [hc, hck, beq_eq_false_iff_ne.mp hqk]
      | none => simp [hc, hck]

/-- The executable lexicographic comparison agrees with the list order. -/
theorem listStrLt_iff : ∀ a b : List Char, listStrLt a b = true ↔ a < b := by
  intro a
  induction a with
  | nil =>
      intro b
      cases b with
      | nil =>
          simp only [listStrLt, Bool.false_eq_true, false_iff]
          intro h
          cases h
      | cons y ys =>
          simp only [listStrLt, true_iff]
          exact List.Lex.nil
  | cons x xs ih =>
      intro b
      cases b with
      | nil =>
          simp only [listStrLt, Bool.false_eq_true, false_iff]
          intro h
          cases h
      | cons y ys =>
          simp only [listStrLt, Bool.or_eq_true, Bool.and_eq_true,
            decide_eq_true_eq, beq_iff_eq]
          constructor
          · rintro (h | ⟨hxy, hrec⟩)
            · exact List.Lex.rel h
            · subst hxy
              exact List.Lex.cons ((ih ys).mp hrec)
          · intro h
            cases h with
            | cons hrec => exact Or.inr ⟨rfl, (ih ys).mpr hrec⟩
            | rel hlt => exact Or.inl hlt

/-- `pyStrLt` agrees with the lexicographic string order. -/
theorem pyStrLt_iff_lt (a b : String) : pyStrLt a b = true ↔ a < b := by
  rw [String.lt_iff_toList_lt]
  exact listStrLt_iff a.data b.data

/-- With a truthy previous start, `statsStep` keeps the lexical minimum of
the old start and the new timestamp. -/
theorem statsStep_range_start_min (s : Stats) (d : SnapData) (ts w : String)
    (hts : d.timestamp = some ts) (htne : ts ≠ "")
    (hw : s.range_start = some w) (hwne : w ≠ "") :
    (statsStep s (some d)).range_start = some (min w ts) := by
  simp only [statsStep, hts, hw, truthyOpt, bne_iff_ne, Option.getD_some]
  rw [if_pos htne]
  have hwb : (w != "") = true := bne_iff_ne.mpr hwne
  simp only [truthyOpt, hwb, Bool.not_true, Bool.false_eq_true, if_false]
  by_cases hlt : ts < w
  · rw [if_pos ((pyStrLt_iff_lt ts w).mpr hlt), min_eq_right (le_of_lt hlt)]
  · rw [if_neg (fun hc => hlt ((pyStrLt_iff_lt ts w).mp hc)),
        min_eq_left (le_of_not_lt hlt)]

/-- With no truthy previous start, `statsStep` adopts the new timestamp
as the start. -/
theorem statsStep_range_start_new (s : Stats) (d : SnapData) (ts : String)
    (hts : d.timestamp = some ts) (htne : ts ≠ "")
    (hw : s.range_start = none ∨ s.range_start = some "") :
    (statsStep s (some d)).range_start = some ts := by
  simp only [statsStep, hts]
  rw [if_pos (bne_iff_ne.mpr htne)]
  rcases hw with hw | hw <;> simp [truthyOpt, hw]

/-- With a truthy previous end, `statsStep` keeps the lexical maximum of
the old end and the new timestamp. -/
theorem statsStep_range_end_max (s : Stats) (d : SnapData) (ts w : String)
    (hts : d.timestamp = some ts) (htne : ts ≠ "")
    (hw : s.range_end = some w) (hwne : w ≠ "") :
    (statsStep s (some d)).range_end = some (max w ts) := by
  simp only [statsStep, hts, hw, truthyOpt, bne_iff_ne, Option.getD_some]
  rw [if_pos htne]
  have hwb : (w != "") = true := bne_iff_ne.mpr hwne
  simp only [truthyOpt, hwb, Bool.not_true, Bool.false_eq_true, if_false]
  by_cases hlt : w < ts
  · rw [if_pos ((pyStrLt_iff_lt w ts).mpr hlt), max_eq_right (le_of_lt hlt)]
  · rw [if_neg (fun hc => hlt ((pyStrLt_iff_lt w ts).mp hc)),
        max_eq_left (le_of_not_lt hlt)]

/-- With no truthy previous end, `statsStep` adopts the new timestamp as
the end. -/
theorem statsStep_range_end_new (s : Stats) (d : SnapData) (ts : String)
    (hts : d.timestamp = some ts) (htne : ts ≠ "")
    (hw : s.range_end = none ∨ s.range_end = some "") :
    (statsStep s (some d)).range_end = some ts := by
  simp only [statsStep, hts]
  rw [if_pos (bne_iff_ne.mpr htne)]
  rcases hw with hw | hw <;> simp [truthyOpt, hw]

/-- C7: aggregation folds `statsStep` over the loaded snapshots: for each
one it bumps its source's snapshot (file) count by one, adds the
snapshot's record count to the source's article count, bumps the error
count exactly when the snapshot carries an error, leaves every other
source untouched, and updates the global capture range to the lexical
minimum / maximum of the truthy timestamps; in particular two "OpenAI"
snapshots with 4 and 6 records and no error aggregate to the entry
(snapshot_count 2, record_count 10, error_count 0). -/
theorem C7_aggregate_statistics :
    (∀ s d, lookupComp (statsStep s (some d)) (d.competitor.getD "Unknown") =
      some (CompStats.mk
        (((lookupComp s (d.competitor.getD "Unknown")).getD ⟨0, 0, 0⟩).file_count + 1)
        (((lookupComp s (d.competitor.getD "Unknown")).getD ⟨0, 0, 0⟩).article_count +
          d.articles.length)
        (((lookupComp s (d.competitor.getD "Unknown")).getD ⟨0, 0, 0⟩).error_count +
          if d.error.isSome then 1 else 0))) ∧
    (∀ s d c, ¬(c = d.competitor.getD "Unknown") →
      lookupComp (statsStep s (some d)) c = lookupComp s c) ∧
    (∀ s d, (statsStep s (some d)).total_articles =
      s.total_articles + d.articles.length) ∧
    (∀ s, statsStep s none = s) ∧
    (∀ s d ts w, d.timestamp = some ts → ts ≠ "" → s.range_start = some w →
      w ≠ "" → (statsStep s (some d)).range_start = some (min w ts)) ∧
    (∀ s d ts, d.timestamp = some ts → ts ≠ "" →
      (s.range_start = none ∨ s.range_start = some "") →
      (statsStep s (some d)).range_start = some ts) ∧
    (∀ s d ts w, d.timestamp = some ts → ts ≠ "" → s.range_end = some w →
      w ≠ "" → (statsStep s (some d)).range_end = some (max w ts)) ∧
    (∀ s d ts, d.timestamp = some ts → ts ≠ "" →
      (s.range_end = none ∨ s.range_end = some "") →
      (statsStep s (some d)).range_end = some ts) ∧
    calculate_statistics
      [some (SnapData.mk (some "OpenAI")
         (List.replicate 4 (Article.mk (some "t") none none none))
         (some "2024-01-02T00:00:00") none),
       some (SnapData.mk (some "OpenAI")
         (List.replicate 6 (Article.mk (some "t") none none none))
         (some "2024-01-01T00:00:00") none)] =
      Stats.mk 2 10 [("OpenAI", CompStats.mk 2 10 0)]
        (some "2024-01-01T00:00:00") (some "2024-01-02T00:00:00") :=
  ⟨lookupComp_statsStep_self, lookupComp_statsStep_other,
   fun _ _ => rfl, fun _ => rfl,
   statsStep_range_start_min, statsStep_range_start_new,
   statsStep_range_end_max, statsStep_range_end_new, by decide⟩

/-- Witness for C7: the range-minimum rule applied at concrete statistics
and a concrete earlier snapshot. -/
theorem C7_aggregate_statistics_witness :
    (SnapData.mk (some "OpenAI") [] (some "2024-01-01T00:00:00") none).timestamp =
      some "2024-01-01T00:00:00" ∧
    ("2024-01-01T00:00:00" : String) ≠ "" ∧
    (Stats.mk 1 4 [("OpenAI", CompStats.mk 1 4 0)]
      (some "2024-01-02T00:00:00") (some "2024-01-02T00:00:00")).range_start =
      some "2024-01-02T00:00:00" ∧
    ("2024-01-02T00:00:00" : String) ≠ "" ∧
    (statsStep (Stats.mk 1 4 [("OpenAI", CompStats.mk 1 4 0)]
        (some "2024-01-02T00:00:00") (some "2024-01-02T00:00:00"))
      (some (SnapData.mk (some "OpenAI") [] (some "2024-01-01T00:00:00") none))).range_start =
      some (min "2024-01-02T00:00:00" "2024-01-01T00:00:00") :=
  ⟨rfl, by decide, rfl, by decide,
   C7_aggregate_statistics.2.2.2.2.1
     (Stats.mk 1 4 [("OpenAI", CompStats.mk 1 4 0)]
       (some "2024-01-02T00:00:00") (some "2024-01-02T00:00:00"))
     (SnapData.mk (some "OpenAI") [] (some "2024-01-01T00:00:00") none)
     "2024-01-01T00:00:00" "2024-01-02T00:00:00" rfl (by decide) rfl (by decide)⟩

/-- Eleven article containers with distinct long titles. -/
def gsoup11 : List Node :=
  (List.range 11).map (fun i =>
    Node.elem "article" [] "t"
      [Node.elem "h2" [] (String.mk (List.replicate (11 + i) 'g')) []])

/-- C10: on success the Google-family scrapers store the unique articles
capped at ten while `article_count` counts all unique articles, so the
count can exceed the stored list's length (witnessed by an eleven-article
page); `scrape_website` instead always stores `article_count` equal to
the length of its stored articles list. -/
theorem C10_article_count_vs_length :
    (∀ soup now, ∃ uniq : List GArticle,
       (scrape_google_ai_blog (.ok soup) now).articles = uniq.take 10 ∧
       (scrape_google_ai_blog (.ok soup) now).article_count = some uniq.length) ∧
    (∀ soup now, ∃ uniq : List GArticle,
       (scrape_deepmind (.ok soup) now).articles = uniq.take 10 ∧
       (scrape_deepmind (.ok soup) now).article_count = some uniq.length) ∧
    ((scrape_google_ai_blog (.ok gsoup11) "T").article_count = some 11 ∧
     (scrape_google_ai_blog (.ok gsoup11) "T").articles.length = 10) ∧
    (∀ soup now c, (scrape_website (.ok soup) now c).article_count =
      some (scrape_website (.ok soup) now c).articles.length) :=
  ⟨fun soup now => ⟨_, rfl, rfl⟩,
   fun soup now => ⟨_, rfl, rfl⟩,
   by decide,
   fun soup now c => rfl⟩
